import Mathlib

/-!
Verification development for the hand-gesture vision controller
(`src/components/VisionController.tsx`).

The file shallowly embeds the two cores of the component:

* the per-frame gesture classifier `processLandmarks` (landmark geometry over
  the reals, mirroring the JavaScript float arithmetic as exact real
  arithmetic), and
* the lifecycle state machine of `initVision` / `handleFileUpload` /
  `startCamera` / the `useEffect` cleanup, embedded as a step function over an
  explicit state record, with one event per asynchronous continuation.
-/

namespace Vision

/-- A MediaPipe hand landmark: normalized 3D coordinates. -/
structure Landmark where
  x : ℝ
  y : ℝ
  z : ℝ

/-- Default landmark used to totalize JavaScript array indexing (`lms[i]`);
under the 21-landmark invariant every index used by the code is in range,
so the default is never read. -/
def dfltLm : Landmark := ⟨0, 0, 0⟩

/-- `HandGesture` enum from `src/types`. -/
inductive HandGesture
  | NONE
  | OPEN_PALM
  | CLOSED_FIST
  deriving DecidableEq

/-- 2D rotation proxy. -/
structure Rotation where
  x : ℝ
  y : ℝ

/-- The `HandState` signal passed to `onUpdate`. -/
structure HandState where
  gesture : HandGesture
  rotation : Rotation
  pinchDistance : ℝ
  isPresent : Bool

/-- Embedding of `processLandmarks` (VisionController.tsx lines 155-199).
`result` is the `HandLandmarkerResult.landmarks` field: a list of landmark
sets.  The source checks `result.landmarks.length > 0` and then reads
`result.landmarks[0]`; the match on the head is that check.  `Math.sqrt` /
`Math.pow` become `Real.sqrt` / `^`. -/
noncomputable def processLandmarks (result : List (List Landmark)) : HandState :=
  match result with
  | landmarks :: _ =>
    let wrist := landmarks.getD 0 dfltLm
    let tips := [8, 12, 16, 20].map (fun i => landmarks.getD i dfltLm)
    let dists := tips.map (fun tip =>
      Real.sqrt ((tip.x - wrist.x) ^ 2 + (tip.y - wrist.y) ^ 2 + (tip.z - wrist.z) ^ 2))
    let avgDist := dists.foldl (· + ·) 0 / (dists.length : ℝ)
    let thumbTip := landmarks.getD 4 dfltLm
    let indexTip := landmarks.getD 8 dfltLm
    let pinchDist :=
      Real.sqrt ((thumbTip.x - indexTip.x) ^ 2 + (thumbTip.y - indexTip.y) ^ 2)
    let gesture :=
      if avgDist < 0.25 then HandGesture.CLOSED_FIST else HandGesture.OPEN_PALM
    let rotX := (wrist.x - 0.5) * 4
    let rotY := (wrist.y - 0.5) * 2
    { gesture := gesture
      rotation := { x := rotX, y := rotY }
      pinchDistance := pinchDist
      isPresent := true }
  | [] =>
    { gesture := HandGesture.NONE
      rotation := { x := 0, y := 0 }
      pinchDistance := 1
      isPresent := false }

/-- The fixed sentinel signal emitted when no hand is present. -/
noncomputable def absentSignal : HandState :=
  { gesture := HandGesture.NONE
    rotation := { x := 0, y := 0 }
    pinchDistance := 1
    isPresent := false }

/-- Spec-side definition (for the refinement claim about the classifier):
3D Euclidean distance "from the wrist landmark (index 0) to" landmark `i`,
written from the spec's words. -/
noncomputable def specDistFromWrist (lms : List Landmark) (i : ℕ) : ℝ :=
  Real.sqrt (((lms.getD 0 dfltLm).x - (lms.getD i dfltLm).x) ^ 2 +
    ((lms.getD 0 dfltLm).y - (lms.getD i dfltLm).y) ^ 2 +
    ((lms.getD 0 dfltLm).z - (lms.getD i dfltLm).z) ^ 2)

/-- Spec-side definition: the average of the four wrist-to-fingertip
distances, written from the spec's words. -/
noncomputable def specAvgDist (lms : List Landmark) : ℝ :=
  (specDistFromWrist lms 8 + specDistFromWrist lms 12 +
    specDistFromWrist lms 16 + specDistFromWrist lms 20) / 4

theorem sqrt_sub_sq_comm (a b c d e f : ℝ) :
    Real.sqrt ((a - b) ^ 2 + (c - d) ^ 2 + (e - f) ^ 2) =
      Real.sqrt ((b - a) ^ 2 + (d - c) ^ 2 + (f - e) ^ 2) := by
  rw [show (a - b) ^ 2 + (c - d) ^ 2 + (e - f) ^ 2 =
      (b - a) ^ 2 + (d - c) ^ 2 + (f - e) ^ 2 by ring]

/-- The classifier's average distance coincides with the spec's. -/
theorem processLandmarks_avg (lms : List Landmark) :
    (([8, 12, 16, 20].map (fun i => lms.getD i dfltLm)).map (fun tip =>
        Real.sqrt ((tip.x - (lms.getD 0 dfltLm).x) ^ 2 +
          (tip.y - (lms.getD 0 dfltLm).y) ^ 2 +
          (tip.z - (lms.getD 0 dfltLm).z) ^ 2))).foldl (· + ·) 0 /
      ((([8, 12, 16, 20].map (fun i => lms.getD i dfltLm)).map (fun tip =>
        Real.sqrt ((tip.x - (lms.getD 0 dfltLm).x) ^ 2 +
          (tip.y - (lms.getD 0 dfltLm).y) ^ 2 +
          (tip.z - (lms.getD 0 dfltLm).z) ^ 2))).length : ℝ) =
      specAvgDist lms := by
  simp only [List.map_cons, List.map_nil, List.foldl_cons, List.foldl_nil,
    List.length_cons, List.length_nil, specAvgDist, specDistFromWrist]
  rw [sqrt_sub_sq_comm, sqrt_sub_sq_comm ((lms.getD 12 dfltLm).x),
    sqrt_sub_sq_comm ((lms.getD 16 dfltLm).x), sqrt_sub_sq_comm ((lms.getD 20 dfltLm).x)]
  push_cast
  ring

/-- Characterization of the classifier on a nonempty frame result, with the
average distance expressed through the spec-side `specAvgDist`. -/
theorem processLandmarks_cons (lms : List Landmark) (rest : List (List Landmark)) :
    processLandmarks (lms :: rest) =
      { gesture :=
          if specAvgDist lms < 0.25 then HandGesture.CLOSED_FIST else HandGesture.OPEN_PALM
        rotation :=
          { x := ((lms.getD 0 dfltLm).x - 0.5) * 4
            y := ((lms.getD 0 dfltLm).y - 0.5) * 2 }
        pinchDistance :=
          Real.sqrt (((lms.getD 4 dfltLm).x - (lms.getD 8 dfltLm).x) ^ 2 +
            ((lms.getD 4 dfltLm).y - (lms.getD 8 dfltLm).y) ^ 2)
        isPresent := true } := by
  have havg := processLandmarks_avg lms
  simp only [processLandmarks]
  rw [havg]

/-- C1: on any 21-landmark set the classifier decides the gesture by comparing
the average of the four 3D wrist-to-fingertip distances against 0.25, with
`CLOSED_FIST` exactly on strict `<`; an average of exactly 0.25 yields
`OPEN_PALM`. -/
theorem classify_gesture_threshold (lms : List Landmark) (h21 : lms.length = 21) :
    ((processLandmarks [lms]).gesture =
      if specAvgDist lms < 0.25 then HandGesture.CLOSED_FIST else HandGesture.OPEN_PALM) ∧
    (specAvgDist lms = 0.25 → (processLandmarks [lms]).gesture = HandGesture.OPEN_PALM) := by
  rw [processLandmarks_cons]
  refine ⟨rfl, fun hb => ?_⟩
  simp only []
  rw [if_neg]
  rw [hb]
  exact lt_irrefl _

theorem classify_gesture_threshold_witness :
    (List.replicate 21 dfltLm).length = 21 ∧
    ((processLandmarks [List.replicate 21 dfltLm]).gesture =
      if specAvgDist (List.replicate 21 dfltLm) < 0.25 then HandGesture.CLOSED_FIST
      else HandGesture.OPEN_PALM) :=
  ⟨rfl, (classify_gesture_threshold (List.replicate 21 dfltLm) rfl).1⟩

/-- C2: the classifier is a pure function of its input; appending an empty
frame result to any history of processed frames always appends the fixed
sentinel `{NONE, (0,0), 1, false}`, independent of the earlier frames. -/
theorem classify_empty_sentinel :
    (∀ history : List (List (List Landmark)),
      (history ++ [[]]).map processLandmarks =
        history.map processLandmarks ++ [absentSignal]) ∧
    processLandmarks [] = absentSignal := by
  refine ⟨fun history => ?_, rfl⟩
  rw [List.map_append]
  rfl

/-- C7: the rotation output is `((wrist.x - 0.5) * 4, (wrist.y - 0.5) * 2)`,
a function of the wrist landmark (index 0) alone; wrist (0.5,0.5,*) gives
(0,0), (0,0,*) gives (-2,-1), (1,1,*) gives (2,1), for any fingertips. -/
theorem rotation_from_wrist_only :
    (∀ (lms : List Landmark) (rest : List (List Landmark)),
      (processLandmarks (lms :: rest)).rotation =
        { x := ((lms.getD 0 dfltLm).x - 0.5) * 4
          y := ((lms.getD 0 dfltLm).y - 0.5) * 2 }) ∧
    (∀ (lms : List Landmark) (rest : List (List Landmark)) (z : ℝ),
      lms.getD 0 dfltLm = ⟨0.5, 0.5, z⟩ →
      (processLandmarks (lms :: rest)).rotation = { x := 0, y := 0 }) ∧
    (∀ (lms : List Landmark) (rest : List (List Landmark)) (z : ℝ),
      lms.getD 0 dfltLm = ⟨0, 0, z⟩ →
      (processLandmarks (lms :: rest)).rotation = { x := -2, y := -1 }) ∧
    (∀ (lms : List Landmark) (rest : List (List Landmark)) (z : ℝ),
      lms.getD 0 dfltLm = ⟨1, 1, z⟩ →
      (processLandmarks (lms :: rest)).rotation = { x := 2, y := 1 }) := by
  refine ⟨fun lms rest => by rw [processLandmarks_cons],
    fun lms rest z h => ?_, fun lms rest z h => ?_, fun lms rest z h => ?_⟩ <;>
    rw [processLandmarks_cons] <;> simp only [h] <;>
    simp only [Rotation.mk.injEq] <;> norm_num

theorem rotation_from_wrist_only_witness :
    (List.replicate 21 (Landmark.mk 0.5 0.5 0)).getD 0 dfltLm = Landmark.mk 0.5 0.5 0 ∧
    (processLandmarks [List.replicate 21 (Landmark.mk 0.5 0.5 0)]).rotation =
      { x := 0, y := 0 } :=
  ⟨rfl, rotation_from_wrist_only.2.1 (List.replicate 21 (Landmark.mk 0.5 0.5 0)) [] 0 rfl⟩

/-! ### Frame scheduler (`predictWebcam`, lines 142-153)

A tick of the loop (with the landmarker and video refs present, as after the
`ready` transition) reads the current media timestamp, compares it with
`lastVideoTime`, runs inference only when it changed, updates `lastVideoTime`
in that case, and unconditionally reschedules itself via
`requestAnimationFrame`.  Media timestamps are embedded as rationals;
`lastVideoTime` starts at the sentinel `-1`. -/

/-- Outcome of one `predictWebcam` tick: whether `detectForVideo` was invoked,
the new `lastVideoTime`, and whether the next tick was scheduled. -/
structure TickOut where
  inferred : Bool
  lastVideoTime : ℚ
  scheduledNext : Bool
  deriving DecidableEq

/-- One tick of `predictWebcam`: the `lastVideoTime.current !==
videoRef.current.currentTime` guard, then the unconditional
`requestAnimationFrame`. -/
def predictTick (lastVideoTime t : ℚ) : TickOut :=
  if lastVideoTime ≠ t then
    { inferred := true, lastVideoTime := t, scheduledNext := true }
  else
    { inferred := false, lastVideoTime := lastVideoTime, scheduledNext := true }

/-- The timestamps at which inference is invoked, over a run of the loop that
observes the timestamps `ts` in order, starting from `last`. -/
def inferredTimes (last : ℚ) : List ℚ → List ℚ
  | [] => []
  | t :: ts => if last ≠ t then t :: inferredTimes t ts else inferredTimes last ts

theorem inferredTimes_count (ts : List ℚ) (hsort : ts.Pairwise (· ≤ ·)) :
    ∀ last : ℚ, (∀ t ∈ ts, last ≤ t) →
      ∀ x : ℚ, (inferredTimes last ts).count x =
        if x ∈ ts ∧ x ≠ last then 1 else 0 := by
  induction ts with
  | nil =>
    intro last _ x
    simp [inferredTimes]
  | cons t ts ih =>
    intro last hle x
    have hsort' : ts.Pairwise (· ≤ ·) := (List.pairwise_cons.mp hsort).2
    have hhead : ∀ t' ∈ ts, t ≤ t' := (List.pairwise_cons.mp hsort).1
    by_cases hlt : last = t
    · subst hlt
      rw [inferredTimes, if_neg (by simp)]
      rw [ih hsort' last hhead x]
      by_cases hx : x ∈ ts ∧ x ≠ last
      · rw [if_pos hx, if_pos ⟨List.mem_cons_of_mem _ hx.1, hx.2⟩]
      · rw [if_neg hx, if_neg]
        intro hx'
        rcases hx' with ⟨hmem, hne⟩
        rcases List.mem_cons.mp hmem with h | h
        · exact hne h
        · exact hx ⟨h, hne⟩
    · rw [inferredTimes, if_pos hlt]
      rw [List.count_cons]
      rw [ih hsort' t hhead x]
      by_cases hxt : x = t
      · subst hxt
        have hcond : x ∈ x :: ts ∧ x ≠ last := ⟨List.mem_cons_self x ts, fun h => hlt h.symm⟩
        rw [if_pos hcond]
        simp
      · simp only [beq_iff_eq]
        have h2 : (if t = x then (1 : ℕ) else 0) = 0 := if_neg (fun h => hxt h.symm)
        rw [h2, add_zero]
        by_cases hxs : x ∈ ts
        · have htx : t ≤ x := hhead x hxs
          have hxl : x ≠ last := by
            intro h
            subst h
            exact hlt (le_antisymm (hle t (List.mem_cons_self t ts)) htx)
          have hc1 : x ∈ ts ∧ x ≠ t := ⟨hxs, hxt⟩
          have hc2 : x ∈ t :: ts ∧ x ≠ last := ⟨List.mem_cons_of_mem t hxs, hxl⟩
          rw [if_pos hc1, if_pos hc2]
        · have hc1 : ¬(x ∈ ts ∧ x ≠ t) := fun h => hxs h.1
          have hc2 : ¬(x ∈ t :: ts ∧ x ≠ last) := by
            intro h
            rcases List.mem_cons.mp h.1 with h' | h'
            · exact hxt h'
            · exact hxs h'
          rw [if_neg hc1, if_neg hc2]

/-- C6: a tick whose timestamp equals the previous one skips inference but
still schedules the next tick; over any run observing a monotone
(non-decreasing, per the CaptureSource contract) sequence of non-negative
timestamps from the initial `lastVideoTime = -1`, inference is invoked
exactly once for each distinct observed timestamp and never twice for the
same timestamp. -/
theorem scheduler_once_per_timestamp :
    (∀ last t : ℚ, last = t →
      (predictTick last t).inferred = false ∧ (predictTick last t).scheduledNext = true) ∧
    (∀ last t : ℚ, last ≠ t →
      (predictTick last t).inferred = true ∧ (predictTick last t).lastVideoTime = t) ∧
    (∀ ts : List ℚ, ts.Pairwise (· ≤ ·) → (∀ t ∈ ts, 0 ≤ t) →
      ∀ x : ℚ, (inferredTimes (-1) ts).count x = if x ∈ ts then 1 else 0) := by
  refine ⟨fun last t h => by simp [predictTick, h],
    fun last t h => by simp [predictTick, h], fun ts hsort hpos x => ?_⟩
  have hle : ∀ t ∈ ts, (-1 : ℚ) ≤ t := fun t ht => le_trans (by norm_num) (hpos t ht)
  rw [inferredTimes_count ts hsort (-1) hle x]
  by_cases hx : x ∈ ts
  · rw [if_pos ⟨hx, by
      intro h
      subst h
      exact absurd (hpos _ hx) (by norm_num)⟩, if_pos hx]
  · rw [if_neg (fun h => hx h.1), if_neg hx]

theorem scheduler_once_per_timestamp_witness :
    ([(0 : ℚ), 0, 1, 1, 2].Pairwise (· ≤ ·) ∧ ∀ t ∈ [(0 : ℚ), 0, 1, 1, 2], 0 ≤ t) ∧
    (inferredTimes (-1) [(0 : ℚ), 0, 1, 1, 2]).count 1 = if (1 : ℚ) ∈ [(0 : ℚ), 0, 1, 1, 2] then 1 else 0 :=
  ⟨⟨by decide, by decide⟩,
    scheduler_once_per_timestamp.2.2 [(0 : ℚ), 0, 1, 1, 2] (by decide) (by decide) 1⟩

/-- C10: the emitted signal depends only on the first landmark set, and
`isPresent` is true exactly when at least one landmark set is present. -/
theorem output_first_set_only :
    (∀ (lms : List Landmark) (r r' : List (List Landmark)),
      processLandmarks (lms :: r) = processLandmarks (lms :: r')) ∧
    (∀ result : List (List Landmark),
      (processLandmarks result).isPresent = true ↔ result ≠ []) := by
  constructor
  · intro lms r r'
    rfl
  · intro result
    cases result <;> simp [processLandmarks]

theorem output_first_set_only_witness :
    processLandmarks [[dfltLm], [dfltLm, dfltLm]] = processLandmarks [[dfltLm]] ∧
    ((processLandmarks [[dfltLm]]).isPresent = true ↔ ([[dfltLm]] : List (List Landmark)) ≠ []) :=
  ⟨output_first_set_only.1 [dfltLm] [[dfltLm, dfltLm]] [],
    output_first_set_only.2 [[dfltLm]]⟩

/-! ### Lifecycle state machine

`startExperience` / `initVision` / `handleFileUpload` / `startCamera`
(lines 31-140), embedded as a step function over an explicit state record.
Each asynchronous continuation (a promise resolution, the `setTimeout`
callback, the user's file selection, the camera grant/deny with the
subsequent `loadeddata` event) is one event; the synchronous code run by a
continuation is that event's state update.  The two awaits of the manual
path (`FilesetResolver.forVisionTasks`, then `createFromOptions`) are
collapsed into one pending flag since nothing observable happens between
them.  Inference-engine handles are numbered by `Nat`. -/

/-- The `status` string state variable. -/
inductive Status
  | idle
  | initializing
  | loading_wasm
  | loading_model
  | waiting_for_file
  | loading_model_manual
  | requesting_camera
  | ready
  | error
  deriving DecidableEq

/-- Error message displayed when `navigator.mediaDevices` is unavailable. -/
def unsupportedMsg : String := "浏览器不支持摄像头访问 (需要 HTTPS)"

/-- Error message displayed when camera permission is denied. -/
def deniedMsg : String := "摄像头权限被拒绝"

/-- Error message displayed when the automatic model download fails. -/
def autoFailMsg : String := "无法连接 Google 服务器下载模型"

/-- Head of the error message displayed when the manual model load fails. -/
def manualFailHead : String := "文件无效: "

/-- The component's state: React state variables, refs, pending async
operations, and observation counters.  `camSupported` is the environment
fact `navigator.mediaDevices && navigator.mediaDevices.getUserMedia`;
`permissionRequested` records whether `getUserMedia` was ever called;
`cameraStarts` counts `getUserMedia` calls; `loopStarted` records whether
`predictWebcam` was ever entered. -/
structure AppState where
  isStarted : Bool
  status : Status
  errorMessage : String
  showManualUpload : Bool
  landmarker : Option ℕ
  wasmPending : Bool
  autoPending : Bool
  manualPending : Bool
  timeoutActive : Bool
  cameraPending : Bool
  permissionRequested : Bool
  cameraStarts : ℕ
  loopStarted : Bool
  camSupported : Bool
  deriving DecidableEq

/-- Initial state after a fresh page load, in an environment where the
camera capability is `supported`. -/
def initState (supported : Bool) : AppState :=
  { isStarted := false
    status := Status.idle
    errorMessage := ""
    showManualUpload := false
    landmarker := none
    wasmPending := false
    autoPending := false
    manualPending := false
    timeoutActive := false
    cameraPending := false
    permissionRequested := false
    cameraStarts := 0
    loopStarted := false
    camSupported := supported }

/-- The synchronous body of `startCamera` (lines 111-140) up to its async
boundary: set `status` to `requesting_camera`; if the environment lacks
camera support, fail with `unsupportedMsg` without calling `getUserMedia`;
otherwise call `getUserMedia` (the grant/deny resolution is a later
event). -/
def startCameraUpd (s : AppState) : AppState :=
  if s.camSupported then
    { s with status := Status.requesting_camera
             permissionRequested := true
             cameraPending := true
             cameraStarts := s.cameraStarts + 1 }
  else
    { s with status := Status.error, errorMessage := unsupportedMsg }

/-- Events: each is one continuation resolving (or the user acting).  Guards
mirror the code: a continuation can only run if its operation is pending,
the timeout callback only if it was neither cleared nor already fired, the
file picker only while the manual-upload panel is rendered, the start
button only while rendered (`!isStarted`). -/
inductive Ev
  | start
  | wasmOk
  | wasmFail (m : String)
  | timeoutFire
  | autoOk (h : ℕ)
  | autoFail
  | fileSelected
  | manualOk (h : ℕ)
  | manualFail (m : String)
  | cameraGranted
  | cameraDenied
  deriving DecidableEq

/-- One step of the lifecycle machine. -/
def step (s : AppState) : Ev → AppState
  | Ev.start =>
      -- startExperience + the synchronous prefix of initVision, through the
      -- transient `initializing` status up to the first `await` (line 46).
      if s.isStarted then s
      else { s with isStarted := true, status := Status.loading_wasm, wasmPending := true }
  | Ev.wasmOk =>
      -- FilesetResolver resolves (line 46): set `loading_model`, start the
      -- 3000 ms timeout, begin `createFromOptions` (lines 49-67).
      if s.wasmPending then
        { s with wasmPending := false
                 status := Status.loading_model
                 timeoutActive := true
                 autoPending := true }
      else s
  | Ev.wasmFail m =>
      -- FilesetResolver rejects: the outer catch (lines 78-82).
      if s.wasmPending then
        { s with wasmPending := false, status := Status.error, errorMessage := m }
      else s
  | Ev.timeoutFire =>
      -- The setTimeout callback (lines 52-56).
      if s.timeoutActive then
        { s with timeoutActive := false
                 showManualUpload :=
                   if s.landmarker = none then true else s.showManualUpload }
      else s
  | Ev.autoOk h =>
      -- createFromOptions resolves (lines 68-71): clearTimeout, store the
      -- handle, startCamera().
      if s.autoPending then
        startCameraUpd { s with autoPending := false
                                timeoutActive := false
                                landmarker := some h }
      else s
  | Ev.autoFail =>
      -- createFromOptions rejects (lines 72-77): clearTimeout, show the
      -- manual-upload panel, `waiting_for_file`, expose the error.
      if s.autoPending then
        { s with autoPending := false
                 timeoutActive := false
                 showManualUpload := true
                 status := Status.waiting_for_file
                 errorMessage := autoFailMsg }
      else s
  | Ev.fileSelected =>
      -- handleFileUpload entered with a nonempty file list (lines 86-92);
      -- the panel renders only while `isStarted && showManualUpload &&
      -- status !== 'ready'`.
      if s.isStarted ∧ s.showManualUpload ∧ s.status ≠ Status.ready then
        { s with status := Status.loading_model_manual, manualPending := true }
      else s
  | Ev.manualOk h =>
      -- Manual createFromOptions resolves (lines 101-104): store the handle,
      -- hide the panel, startCamera().
      if s.manualPending then
        startCameraUpd { s with manualPending := false
                                landmarker := some h
                                showManualUpload := false }
      else s
  | Ev.manualFail m =>
      -- Manual path rejects (lines 105-108): terminal error.
      if s.manualPending then
        { s with manualPending := false
                 status := Status.error
                 errorMessage := manualFailHead ++ m }
      else s
  | Ev.cameraGranted =>
      -- getUserMedia resolves and `loadeddata` fires (lines 119-134):
      -- `ready`, predictWebcam() starts the frame loop.
      if s.cameraPending then
        { s with cameraPending := false, status := Status.ready, loopStarted := true }
      else s
  | Ev.cameraDenied =>
      -- getUserMedia rejects (lines 135-139).
      if s.cameraPending then
        { s with cameraPending := false
                 status := Status.error
                 errorMessage := deniedMsg }
      else s

/-- Run the machine over a list of events. -/
def run (s : AppState) (evs : List Ev) : AppState := evs.foldl step s

theorem run_append (s : AppState) (l l' : List Ev) :
    run s (l ++ l') = run (run s l) l' := List.foldl_append step s l l'

/-- A state in which every guard is closed (no pending continuation, timeout
cleared, upload panel hidden, already started) is a fixpoint of `step`. -/
theorem step_fix_of_inactive (s : AppState)
    (h1 : s.isStarted = true) (h2 : s.wasmPending = false) (h3 : s.autoPending = false)
    (h4 : s.manualPending = false) (h5 : s.timeoutActive = false)
    (h6 : s.cameraPending = false) (h7 : s.showManualUpload = false) :
    ∀ e : Ev, step s e = s := by
  intro e
  cases e <;> simp [step, h1, h2, h3, h4, h5, h6, h7]

/-- A fixpoint of `step` is a fixpoint of every run. -/
theorem run_fix (s : AppState) (hfix : ∀ e : Ev, step s e = s) :
    ∀ evs : List Ev, run s evs = s := by
  intro evs
  induction evs with
  | nil => rfl
  | cons e evs ih =>
    show run (step s e) evs = s
    rw [hfix e]
    exact ih

/-- C3 counterexample: in the interleaving where the manual upload finishes
first (state has advanced to `ready`, one camera acquisition), the automatic
load resolving late with success is NOT ignored: it starts a second camera
acquisition and drops the lifecycle state back to `requesting_camera`. -/
theorem late_auto_success_not_ignored_cex :
    (run (initState true) [Ev.start, Ev.wasmOk, Ev.timeoutFire, Ev.fileSelected,
      Ev.manualOk 1, Ev.cameraGranted]).status = Status.ready ∧
    (run (initState true) [Ev.start, Ev.wasmOk, Ev.timeoutFire, Ev.fileSelected,
      Ev.manualOk 1, Ev.cameraGranted]).cameraStarts = 1 ∧
    (run (initState true) [Ev.start, Ev.wasmOk, Ev.timeoutFire, Ev.fileSelected,
      Ev.manualOk 1, Ev.cameraGranted, Ev.autoOk 2]).cameraStarts = 2 ∧
    (run (initState true) [Ev.start, Ev.wasmOk, Ev.timeoutFire, Ev.fileSelected,
      Ev.manualOk 1, Ev.cameraGranted, Ev.autoOk 2]).status =
      Status.requesting_camera := by
  decide

/-- C3 amended: the late automatic success is not ignored; whenever the
automatic creation resolves successfully (in a camera-capable environment),
it overwrites the shared handle field, sets the state back to
`requesting_camera`, and starts one more camera acquisition — even if the
manual path already advanced the state to `ready`. -/
theorem late_auto_success_restarts_camera (s : AppState) (h : ℕ)
    (hp : s.autoPending = true) (hc : s.camSupported = true) :
    (step s (Ev.autoOk h)).landmarker = some h ∧
    (step s (Ev.autoOk h)).status = Status.requesting_camera ∧
    (step s (Ev.autoOk h)).cameraStarts = s.cameraStarts + 1 := by
  cases s
  simp_all [step, startCameraUpd]

theorem late_auto_success_restarts_camera_witness :
    (run (initState true) [Ev.start, Ev.wasmOk, Ev.timeoutFire, Ev.fileSelected,
      Ev.manualOk 1, Ev.cameraGranted]).autoPending = true ∧
    (run (initState true) [Ev.start, Ev.wasmOk, Ev.timeoutFire, Ev.fileSelected,
      Ev.manualOk 1, Ev.cameraGranted]).camSupported = true ∧
    (step (run (initState true) [Ev.start, Ev.wasmOk, Ev.timeoutFire, Ev.fileSelected,
      Ev.manualOk 1, Ev.cameraGranted]) (Ev.autoOk 2)).cameraStarts =
      (run (initState true) [Ev.start, Ev.wasmOk, Ev.timeoutFire, Ev.fileSelected,
        Ev.manualOk 1, Ev.cameraGranted]).cameraStarts + 1 :=
  ⟨by decide, by decide,
    (late_auto_success_restarts_camera _ 2 (by decide) (by decide)).2.2⟩

/-- C4: the 3000 ms timeout is advisory.  If the engine is created before the
timeout fires, the timeout is cancelled (firing it later is a no-op), the
manual-upload panel is never shown, and camera acquisition starts
immediately; if creation succeeds only after the timeout fired, the handle
is still stored and camera acquisition still proceeds. -/
theorem timeout_advisory (h : ℕ) :
    (run (initState true) [Ev.start, Ev.wasmOk, Ev.autoOk h]).showManualUpload = false ∧
    (run (initState true) [Ev.start, Ev.wasmOk, Ev.autoOk h]).timeoutActive = false ∧
    (run (initState true) [Ev.start, Ev.wasmOk, Ev.autoOk h]).landmarker = some h ∧
    (run (initState true) [Ev.start, Ev.wasmOk, Ev.autoOk h]).status =
      Status.requesting_camera ∧
    (run (initState true) [Ev.start, Ev.wasmOk, Ev.autoOk h]).cameraStarts = 1 ∧
    step (run (initState true) [Ev.start, Ev.wasmOk, Ev.autoOk h]) Ev.timeoutFire =
      run (initState true) [Ev.start, Ev.wasmOk, Ev.autoOk h] ∧
    (run (initState true) [Ev.start, Ev.wasmOk, Ev.timeoutFire, Ev.autoOk h]).landmarker =
      some h ∧
    (run (initState true) [Ev.start, Ev.wasmOk, Ev.timeoutFire, Ev.autoOk h]).cameraStarts = 1 ∧
    (run (initState true) [Ev.start, Ev.wasmOk, Ev.timeoutFire, Ev.autoOk h]).status =
      Status.requesting_camera := by
  simp [run, List.foldl, step, initState, startCameraUpd]

theorem timeout_advisory_witness :
    (run (initState true) [Ev.start, Ev.wasmOk, Ev.autoOk 7]).landmarker = some 7 ∧
    (run (initState true) [Ev.start, Ev.wasmOk, Ev.timeoutFire, Ev.autoOk 7]).landmarker =
      some 7 :=
  ⟨(timeout_advisory 7).2.2.1, (timeout_advisory 7).2.2.2.2.2.2.1⟩

/-- C5: an automatic-load failure (before or after the timeout fired) yields
`waiting_for_file` with the error message exposed and the panel shown; a
subsequent successful manual selection goes through `loading_model_manual`
and `requesting_camera` to `ready`; a failing manual attempt ends in the
terminal `error` state with no retry in flight. -/
theorem auto_fail_manual_recovery (h : ℕ) (m : String) :
    ((run (initState true) [Ev.start, Ev.wasmOk, Ev.autoFail]).status =
        Status.waiting_for_file ∧
      (run (initState true) [Ev.start, Ev.wasmOk, Ev.autoFail]).showManualUpload = true ∧
      (run (initState true) [Ev.start, Ev.wasmOk, Ev.autoFail]).errorMessage = autoFailMsg) ∧
    ((run (initState true) [Ev.start, Ev.wasmOk, Ev.timeoutFire, Ev.autoFail]).status =
        Status.waiting_for_file ∧
      (run (initState true) [Ev.start, Ev.wasmOk, Ev.timeoutFire,
        Ev.autoFail]).showManualUpload = true ∧
      (run (initState true) [Ev.start, Ev.wasmOk, Ev.timeoutFire,
        Ev.autoFail]).errorMessage = autoFailMsg) ∧
    ((run (initState true) [Ev.start, Ev.wasmOk, Ev.timeoutFire, Ev.autoFail,
        Ev.fileSelected]).status = Status.loading_model_manual ∧
      (run (initState true) [Ev.start, Ev.wasmOk, Ev.timeoutFire, Ev.autoFail,
        Ev.fileSelected, Ev.manualOk h]).status = Status.requesting_camera ∧
      (run (initState true) [Ev.start, Ev.wasmOk, Ev.timeoutFire, Ev.autoFail,
        Ev.fileSelected, Ev.manualOk h, Ev.cameraGranted]).status = Status.ready) ∧
    ((run (initState true) [Ev.start, Ev.wasmOk, Ev.timeoutFire, Ev.autoFail,
        Ev.fileSelected, Ev.manualFail m]).status = Status.error ∧
      (run (initState true) [Ev.start, Ev.wasmOk, Ev.timeoutFire, Ev.autoFail,
        Ev.fileSelected, Ev.manualFail m]).errorMessage = manualFailHead ++ m ∧
      (run (initState true) [Ev.start, Ev.wasmOk, Ev.timeoutFire, Ev.autoFail,
        Ev.fileSelected, Ev.manualFail m]).manualPending = false ∧
      (run (initState true) [Ev.start, Ev.wasmOk, Ev.timeoutFire, Ev.autoFail,
        Ev.fileSelected, Ev.manualFail m]).autoPending = false) := by
  simp [run, List.foldl, step, initState, startCameraUpd]

theorem auto_fail_manual_recovery_witness :
    (run (initState true) [Ev.start, Ev.wasmOk, Ev.timeoutFire, Ev.autoFail,
      Ev.fileSelected, Ev.manualOk 5, Ev.cameraGranted]).status = Status.ready ∧
    (run (initState true) [Ev.start, Ev.wasmOk, Ev.timeoutFire, Ev.autoFail,
      Ev.fileSelected, Ev.manualFail "bad"]).errorMessage = manualFailHead ++ "bad" :=
  ⟨(auto_fail_manual_recovery 5 "bad").2.2.1.2.2,
    (auto_fail_manual_recovery 5 "bad").2.2.2.2.1⟩

/-- C9: a missing camera capability is detected before any permission request
(`getUserMedia` is never called) and reported with the capability-specific
message; a denied permission is the terminal `error` state with the
permission-specific message; the two messages are distinct and in either
failure the frame loop never starts, whatever happens afterwards. -/
theorem camera_failure_modes :
    (∀ s : AppState, s.camSupported = false →
      (startCameraUpd s).status = Status.error ∧
      (startCameraUpd s).errorMessage = unsupportedMsg ∧
      (startCameraUpd s).permissionRequested = s.permissionRequested ∧
      (startCameraUpd s).cameraStarts = s.cameraStarts ∧
      (startCameraUpd s).loopStarted = s.loopStarted) ∧
    unsupportedMsg ≠ deniedMsg ∧
    ((run (initState true) [Ev.start, Ev.wasmOk, Ev.autoOk 1, Ev.cameraDenied]).status =
        Status.error ∧
      (run (initState true) [Ev.start, Ev.wasmOk, Ev.autoOk 1,
        Ev.cameraDenied]).errorMessage = deniedMsg ∧
      ∀ evs : List Ev,
        (run (run (initState true) [Ev.start, Ev.wasmOk, Ev.autoOk 1, Ev.cameraDenied])
          evs).loopStarted = false) ∧
    ((run (initState false) [Ev.start, Ev.wasmOk, Ev.autoOk 1]).status = Status.error ∧
      (run (initState false) [Ev.start, Ev.wasmOk, Ev.autoOk 1]).errorMessage =
        unsupportedMsg ∧
      (run (initState false) [Ev.start, Ev.wasmOk, Ev.autoOk 1]).permissionRequested =
        false ∧
      (run (initState false) [Ev.start, Ev.wasmOk, Ev.autoOk 1]).loopStarted = false) := by
  refine ⟨fun s hc => ?_, by decide, ⟨by decide, by decide, fun evs => ?_⟩, by decide⟩
  · cases s
    simp_all [startCameraUpd]
  · rw [run_fix _ (step_fix_of_inactive _ (by decide) (by decide) (by decide)
      (by decide) (by decide) (by decide) (by decide)) evs]
    decide

theorem camera_failure_modes_witness :
    (initState false).camSupported = false ∧
    (startCameraUpd (initState false)).status = Status.error ∧
    (startCameraUpd (initState false)).permissionRequested =
      (initState false).permissionRequested :=
  ⟨rfl, (camera_failure_modes.1 (initState false) rfl).1,
    (camera_failure_modes.1 (initState false) rfl).2.2.1⟩

/-! ### Teardown (`useEffect` cleanup, lines 202-209)

The cleanup cancels the pending animation-frame callback and, if a stream
was ever attached to the video element, stops each of its tracks.  Both
operations are modelled on the state they touch: `cancelAnimationFrame` on
an id with no pending callback is a no-op, and `MediaStreamTrack.stop` on an
already-stopped track is a no-op; neither throws.  The cleanup is a total
function — it produces no error on any state. -/

/-- The resources the cleanup touches: the tracks of
`videoRef.current.srcObject` (`none` when no stream was ever attached; each
track's flag is `true` once stopped) and whether an animation-frame callback
is pending. -/
structure MediaState where
  srcTracks : Option (List Bool)
  rafPending : Bool
  deriving DecidableEq

/-- The `useEffect` cleanup: `cancelAnimationFrame(requestRef.current)`, then
`getTracks().forEach(t => t.stop())` when a stream is attached. -/
def cleanup (s : MediaState) : MediaState :=
  { srcTracks := s.srcTracks.map (fun ts => ts.map (fun _ => true))
    rafPending := false }

/-- C8: teardown is idempotent, is a no-op on a state where no stream or
frame loop was ever acquired, stops exactly the originally-acquired tracks
(the track list keeps its length — nothing beyond the acquired tracks is
stopped), and being a total function it produces no error. -/
theorem teardown_idempotent_safe :
    (∀ s : MediaState, cleanup (cleanup s) = cleanup s) ∧
    cleanup { srcTracks := none, rafPending := false } =
      { srcTracks := none, rafPending := false } ∧
    (∀ s : MediaState, (cleanup s).srcTracks.map List.length =
      s.srcTracks.map List.length) := by
  refine ⟨fun s => ?_, rfl, fun s => ?_⟩
  · cases s with
  | mk tr raf => cases tr <;> simp [cleanup]
  · cases s with
  | mk tr raf => cases tr <;> simp [cleanup]

end Vision
